import Mathlib

/-!
Verification of the expense-tracker backend (`src/main.py`).

The service stores dated debit/credit transactions in a document store and
offers create/list/update/delete plus two aggregations (summary, monthly
chart).  The store is embedded as a `List Transaction`; the MongoDB query
and aggregation pipelines that `main.py` builds are embedded as Lean
functions with the documented MongoDB semantics ($expr month/year equality
match, single-group $sum with $cond, group-by-month).  The helpers
`create_document` and `get_documents` come from `database.py`, which is not
part of the sources here; they are modelled from the spec where noted.
Python `float` amounts are modelled as rationals; `Optional[int]` query
parameters as `Option Int`, with Python truthiness (`if month:`) embedded
explicitly.
-/

namespace ExpenseTracker

/-- A calendar date as the store sees it: only the year and month components
are ever inspected (by the `$year` / `$month` Mongo operators); the day is
carried along. -/
structure TxDate where
  year : Int
  month : Nat
  day : Nat
  deriving DecidableEq

/-- A persisted transaction record (`expense` collection document).
Identifiers are modelled as their 24-hex-character string form; timestamps
as abstract `Nat` instants. -/
structure Transaction where
  oid : String
  date : TxDate
  description : String
  amount : ℚ
  kind : String
  created_at : Nat
  updated_at : Nat
  deriving DecidableEq

/-- Python truthiness of an `Optional[int]`: `None` and `0` are falsy.
`main.py` guards every filter clause with `if month:` / `if year:`. -/
def truthy : Option Int → Bool
  | none => false
  | some v => v != 0

/-- One `$expr` conjunct built by `main.py`:
`{"$eq": [{"$month": "$date"}, m]}` or `{"$eq": [{"$year": "$date"}, y]}`. -/
inductive ExprPart where
  | eqMonth (m : Int)
  | eqYear (y : Int)
  deriving DecidableEq

/-- MongoDB evaluation of one `$expr` conjunct on a document. -/
def matchesPart (t : Transaction) : ExprPart → Bool
  | ExprPart.eqMonth m => (t.date.month : Int) == m
  | ExprPart.eqYear y => t.date.year == y

/-- MongoDB evaluation of the whole query: the empty query `{}` matches
everything, otherwise `$and` of the conjuncts. -/
def matchesQuery (q : List ExprPart) (t : Transaction) : Bool :=
  q.all (matchesPart t)

/-- The query document built by `list_expenses` (src/main.py lines 66-81):
nothing when both parameters are falsy, otherwise the `$expr` conjuncts for
each truthy parameter. -/
def list_query (month year : Option Int) : List ExprPart :=
  if truthy month || truthy year then
    (if truthy month then [ExprPart.eqMonth (month.getD 0)] else []) ++
      (if truthy year then [ExprPart.eqYear (year.getD 0)] else [])
  else []

/-- Modelled from the spec: the `get_documents` helper lives in
`database.py`, which is not among the sources; per the spec the store
supports predicate-based retrieval, so it returns exactly the stored
records matching the query predicate. -/
def get_documents (store : List Transaction) (q : List ExprPart) : List Transaction :=
  store.filter (matchesQuery q)

/-- `list_expenses` (src/main.py lines 63-84): build the period query, then
retrieve the matching documents.  (Per-record serialisation to JSON is
presentation only and is not modelled.) -/
def list_expenses (store : List Transaction) (month year : Option Int) : List Transaction :=
  get_documents store (list_query month year)

/-- The summary returned by `get_summary`: all three fields are always
present plain numbers. -/
structure Summary where
  total_debit : ℚ
  total_credit : ℚ
  balance : ℚ
  deriving DecidableEq

/-- The `$expr` conjuncts of the `$match` stage built by `get_summary`
(src/main.py lines 91-98); same truthiness guards as the list query. -/
def summary_query (month year : Option Int) : List ExprPart :=
  (if truthy month then [ExprPart.eqMonth (month.getD 0)] else []) ++
    (if truthy year then [ExprPart.eqYear (year.getD 0)] else [])

/-- The records the summary pipeline's `$match` stage keeps. -/
def summaryMatched (store : List Transaction) (month year : Option Int) : List Transaction :=
  store.filter (matchesQuery (summary_query month year))

/-- `$sum` of `{"$cond": [{"$eq": ["$kind", "debit"]}, "$amount", 0]}` over
a list of documents. -/
def debitSum (l : List Transaction) : ℚ :=
  (l.map (fun t => if t.kind == "debit" then t.amount else 0)).sum

/-- `$sum` of `{"$cond": [{"$eq": ["$kind", "credit"]}, "$amount", 0]}` over
a list of documents. -/
def creditSum (l : List Transaction) : ℚ :=
  (l.map (fun t => if t.kind == "credit" then t.amount else 0)).sum

/-- `get_summary` (src/main.py lines 87-136): `$match` on the period, one
`$group` with `_id: None` accumulating the two conditional sums, `$project`
computing `balance` as `$subtract` of credit and debit.  A `$group` over an
empty input emits no document, so an empty aggregation result yields the
explicit `{total_debit: 0, total_credit: 0, balance: 0}` fallback
(lines 132-133). -/
def get_summary (store : List Transaction) (month year : Option Int) : Summary :=
  let matched := summaryMatched store month year
  if matched.isEmpty then ⟨0, 0, 0⟩
  else ⟨debitSum matched, creditSum matched, creditSum matched - debitSum matched⟩

/-- One entry of the monthly chart: `{month, debit, credit}`. -/
structure ChartEntry where
  month : Nat
  debit : ℚ
  credit : ℚ
  deriving DecidableEq

/-- The year the chart targets: `y = year or datetime.utcnow().year`
(src/main.py line 142) — Python `or`, so `None` and `0` both fall back to
the current year, passed in here as `nowYear`. -/
def chartYear (year : Option Int) (nowYear : Int) : Int :=
  if truthy year then year.getD 0 else nowYear

/-- The records kept by the chart pipeline's
`{"$match": {"$expr": {"$eq": [{"$year": "$date"}, y]}}}` stage. -/
def chartMatched (store : List Transaction) (year : Option Int) (nowYear : Int) : List Transaction :=
  store.filter (fun t => t.date.year == chartYear year nowYear)

/-- The `$group`-by-month output document for month `m`: debit and credit
conditional sums over the matched records of that month. -/
def chartGroup (matched : List Transaction) (m : Nat) : ChartEntry :=
  let g := matched.filter (fun t => t.date.month == m)
  ⟨m, debitSum g, creditSum g⟩

/-- `month_map.get(m, {"month": m, "debit": 0, "credit": 0})`
(src/main.py line 161): the dict built from the grouped data has an entry
for `m` exactly when some matched record falls in month `m`. -/
def chartEntryFor (matched : List Transaction) (m : Nat) : ChartEntry :=
  if matched.any (fun t => t.date.month == m) then chartGroup matched m
  else ⟨m, 0, 0⟩

/-- `monthly_chart` (src/main.py lines 139-163): group the target year's
records by month, then the gap-filling loop `for m in range(1, 13)` emits
one entry per month 1..12, taking the grouped entry when present and the
zero entry otherwise. -/
def monthly_chart (store : List Transaction) (year : Option Int) (nowYear : Int) : List ChartEntry :=
  (List.range 12).map (fun i => chartEntryFor (chartMatched store year nowYear) (i + 1))

/-- The create request body (`ExpenseCreate`, src/main.py lines 22-26):
all four fields required, `amount` only type-checked as a number. -/
structure ExpenseCreate where
  date : TxDate
  description : String
  amount : ℚ
  kind : String
  deriving DecidableEq

/-- The partial update body (`ExpenseUpdate`, src/main.py lines 28-32):
every field individually optional, defaulting to `None`. -/
structure ExpenseUpdate where
  date : Option TxDate
  description : Option String
  amount : Option ℚ
  kind : Option String
  deriving DecidableEq

/-- How a request can fail: `http s d` is a raised `HTTPException(s, d)`;
`exn m` is an unhandled Python exception (surfacing as a server error). -/
inductive ApiError where
  | http (status : Nat) (detail : String)
  | exn (msg : String)
  deriving DecidableEq

/-- The update endpoint's success body: `{"updated": b}`. -/
structure UpdateResult where
  updated : Bool
  deriving DecidableEq

/-- The delete endpoint's success body: `{"deleted": b}`. -/
structure DeleteResult where
  deleted : Bool
  deriving DecidableEq

instance {ε α : Type} [DecidableEq ε] [DecidableEq α] : DecidableEq (Except ε α)
  | Except.error a, Except.error b =>
    if h : a = b then isTrue (by rw [h]) else isFalse (fun hc => by cases hc; exact h rfl)
  | Except.error _, Except.ok _ => isFalse (fun hc => by cases hc)
  | Except.ok _, Except.error _ => isFalse (fun hc => by cases hc)
  | Except.ok a, Except.ok b =>
    if h : a = b then isTrue (by rw [h]) else isFalse (fun hc => by cases hc; exact h rfl)

/-- Modelled from the spec: the `create_document` helper lives in
`database.py`, which is not among the sources; per the spec and the call
site's comment it stamps `created_at` and `updated_at` with the current
time, inserts the record, and returns the new store-assigned identifier.
`now` is the insertion instant and `newId` the identifier the store
assigns. -/
def create_document (store : List Transaction) (p : ExpenseCreate) (now : Nat) (newId : String) :
    String × List Transaction :=
  (newId, store ++ [⟨newId, p.date, p.description, p.amount, p.kind, now, now⟩])

/-- `create_expense` (src/main.py lines 52-60): reject with HTTP 422 when
`payload.kind not in ("debit", "credit")`, otherwise insert via
`create_document` and return the new identifier.  The pair's second
component is the store after the request. -/
def create_expense (store : List Transaction) (p : ExpenseCreate) (now : Nat) (newId : String) :
    Except ApiError String × List Transaction :=
  if p.kind == "debit" || p.kind == "credit" then
    let r := create_document store p now newId
    (Except.ok r.1, r.2)
  else (Except.error (ApiError.http 422 "kind must be 'debit' or 'credit'"), store)

/-- Whether a character is a hexadecimal digit, as `bson.ObjectId` accepts. -/
def isHexChar (c : Char) : Bool :=
  (('0' ≤ c) && (c ≤ '9')) || (('a' ≤ c) && (c ≤ 'f')) || (('A' ≤ c) && (c ≤ 'F'))

/-- `bson.ObjectId(s)` on a string: succeeds exactly when `s` is a
24-character hexadecimal string, otherwise raises `InvalidId`.  The
identifier is modelled by its string form. -/
def parseObjectId (s : String) : Except String String :=
  if s.length = 24 && s.toList.all isHexChar then Except.ok s
  else Except.error "InvalidId"

/-- `payload.model_dump(exclude_none=True)` is empty exactly when every
optional field is `None` (the `if not updates:` test, src/main.py
line 171). -/
def updatesEmpty (p : ExpenseUpdate) : Bool :=
  p.date.isNone && p.description.isNone && p.amount.isNone && p.kind.isNone

/-- The `$set` document applied by `update_expense` (src/main.py
lines 170-174): the supplied fields overwrite the stored ones and
`updated_at` is always refreshed to the current time. -/
def applySet (t : Transaction) (p : ExpenseUpdate) (now : Nat) : Transaction :=
  { t with
    date := p.date.getD t.date
    description := p.description.getD t.description
    amount := p.amount.getD t.amount
    kind := p.kind.getD t.kind
    updated_at := now }

/-- Mongo `update_one`: applies `f` to the first document whose `_id`
equals `oid` and reports `matched_count` (0 or 1 in a store with unique
identifiers). -/
def updateOne : List Transaction → String → (Transaction → Transaction) → Nat × List Transaction
  | [], _, _ => (0, [])
  | t :: ts, oid, f =>
    if t.oid == oid then (1, f t :: ts)
    else
      let r := updateOne ts oid f
      (r.1, t :: r.2)

/-- Mongo `delete_one`: removes the first document whose `_id` equals `oid`
and reports `deleted_count`. -/
def deleteOne : List Transaction → String → Nat × List Transaction
  | [], _ => (0, [])
  | t :: ts, oid =>
    if t.oid == oid then (1, ts)
    else
      let r := deleteOne ts oid
      (r.1, t :: r.2)

/-- `update_expense` (src/main.py lines 166-177): an empty field set
returns `{"updated": False}` before the identifier is even parsed; then
`ObjectId(expense_id)` may raise; then `update_one` applies the `$set` and
a zero `matched_count` raises HTTP 404. -/
def update_expense (store : List Transaction) (idStr : String) (p : ExpenseUpdate) (now : Nat) :
    Except ApiError UpdateResult × List Transaction :=
  if updatesEmpty p then (Except.ok ⟨false⟩, store)
  else
    match parseObjectId idStr with
    | Except.error m => (Except.error (ApiError.exn m), store)
    | Except.ok oid =>
      let res := updateOne store oid (fun t => applySet t p now)
      if res.1 = 0 then (Except.error (ApiError.http 404 "Expense not found"), res.2)
      else (Except.ok ⟨true⟩, res.2)

/-- `delete_expense` (src/main.py lines 180-187): `ObjectId(expense_id)`
may raise; then `delete_one` runs and a zero `deleted_count` raises
HTTP 404. -/
def delete_expense (store : List Transaction) (idStr : String) :
    Except ApiError DeleteResult × List Transaction :=
  match parseObjectId idStr with
  | Except.error m => (Except.error (ApiError.exn m), store)
  | Except.ok oid =>
    let res := deleteOne store oid
    if res.1 = 0 then (Except.error (ApiError.http 404 "Expense not found"), res.2)
    else (Except.ok ⟨true⟩, res.2)

/-- The period predicate in the spec's amended form: a selector that is
absent or supplied as `0` is ignored; a nonzero month selects records whose
month component equals it, a nonzero year likewise, and both together are a
conjunction. -/
def periodPred (month year : Option Int) (t : Transaction) : Bool :=
  (!truthy month || ((t.date.month : Int) == month.getD 0)) &&
    (!truthy year || (t.date.year == year.getD 0))

lemma list_query_spec (month year : Option Int) (t : Transaction) :
    matchesQuery (list_query month year) t = periodPred month year t := by
  unfold list_query periodPred matchesQuery
  cases hm : truthy month <;> cases hy : truthy year <;> simp [matchesPart]

lemma summary_query_spec (month year : Option Int) (t : Transaction) :
    matchesQuery (summary_query month year) t = periodPred month year t := by
  unfold summary_query periodPred matchesQuery
  cases hm : truthy month <;> cases hy : truthy year <;> simp [matchesPart]

lemma list_expenses_filter_periodPred (store : List Transaction) (month year : Option Int) :
    list_expenses store month year = store.filter (periodPred month year) := by
  unfold list_expenses get_documents
  exact List.filter_congr (fun t _ => list_query_spec month year t)

lemma chartEntryFor_month (l : List Transaction) (m : Nat) :
    (chartEntryFor l m).month = m := by
  unfold chartEntryFor chartGroup
  split <;> rfl

lemma chartEntryFor_of_absent (l : List Transaction) (m : Nat)
    (h : ∀ t ∈ l, t.date.month ≠ m) : chartEntryFor l m = ⟨m, 0, 0⟩ := by
  unfold chartEntryFor
  have hfalse : (l.any fun t => t.date.month == m) = false := by
    simp only [List.any_eq_false, beq_iff_eq]
    exact h
  rw [hfalse]
  simp

lemma debitSum_eq_filter (l : List Transaction) :
    debitSum l = ((l.filter (fun t => t.kind == "debit")).map Transaction.amount).sum := by
  induction l with
  | nil => rfl
  | cons t ts ih =>
    by_cases h : t.kind = "debit" <;>
      simp [debitSum, List.filter_cons, h] at ih ⊢ <;> rw [ih]

lemma creditSum_eq_filter (l : List Transaction) :
    creditSum l = ((l.filter (fun t => t.kind == "credit")).map Transaction.amount).sum := by
  induction l with
  | nil => rfl
  | cons t ts ih =>
    by_cases h : t.kind = "credit" <;>
      simp [creditSum, List.filter_cons, h] at ih ⊢ <;> rw [ih]

lemma get_summary_of_matched_nil (store : List Transaction) (month year : Option Int)
    (h : summaryMatched store month year = []) :
    get_summary store month year = ⟨0, 0, 0⟩ := by
  unfold get_summary
  rw [h]
  rfl

/-- Claim C1: for every year argument (including the current-year default)
and every store, `monthly_chart` returns exactly 12 entries; the entry at
index `i` is for month `i + 1`, so the months are 1..12 in strictly
ascending order; and every month in 1..12 with no matching transaction
appears as `{month, debit: 0, credit: 0}`. -/
theorem C1_monthly_chart_gap_filling (store : List Transaction) (year : Option Int)
    (nowYear : Int) :
    (monthly_chart store year nowYear).length = 12 ∧
    (∀ i (h : i < (monthly_chart store year nowYear).length),
      ((monthly_chart store year nowYear).get ⟨i, h⟩).month = i + 1) ∧
    (∀ m, 1 ≤ m → m ≤ 12 →
      (∀ t ∈ chartMatched store year nowYear, t.date.month ≠ m) →
      ∃ h : m - 1 < (monthly_chart store year nowYear).length,
        (monthly_chart store year nowYear).get ⟨m - 1, h⟩ = ⟨m, 0, 0⟩) := by
  refine ⟨by simp [monthly_chart], ?_, ?_⟩
  · intro i h
    simp [monthly_chart, chartEntryFor_month]
  · intro m h1 h12 habs
    have hlen : m - 1 < (monthly_chart store year nowYear).length := by
      simp [monthly_chart]
      omega
    refine ⟨hlen, ?_⟩
    have hm : m - 1 + 1 = m := by omega
    simp [monthly_chart, hm, chartEntryFor_of_absent _ _ habs]

/-- Claim C1 witness: the gap-filling theorem applied to a concrete
one-record store. -/
theorem C1_monthly_chart_gap_filling_witness :
    (monthly_chart [⟨"aaaaaaaaaaaaaaaaaaaaaaaa", ⟨2024, 3, 15⟩, "rent", 1200, "debit", 0, 0⟩]
      (some 2024) 2025).length = 12 :=
  (C1_monthly_chart_gap_filling
    [⟨"aaaaaaaaaaaaaaaaaaaaaaaa", ⟨2024, 3, 15⟩, "rent", 1200, "debit", 0, 0⟩]
    (some 2024) 2025).1

/-- Claim C2: on every store and every optional period filter, the summary
satisfies `balance = total_credit − total_debit`, with `total_debit` the
sum of `amount` over matched records of kind `debit` and `total_credit`
the sum over matched records of kind `credit`. -/
theorem C2_summary_balance_identity (store : List Transaction) (month year : Option Int) :
    (get_summary store month year).balance =
      (get_summary store month year).total_credit -
        (get_summary store month year).total_debit ∧
    (get_summary store month year).total_debit =
      (((summaryMatched store month year).filter
        (fun t => t.kind == "debit")).map Transaction.amount).sum ∧
    (get_summary store month year).total_credit =
      (((summaryMatched store month year).filter
        (fun t => t.kind == "credit")).map Transaction.amount).sum := by
  unfold get_summary
  cases h : (summaryMatched store month year).isEmpty with
  | true =>
    rw [List.isEmpty_iff] at h
    rw [h]
    simp
  | false =>
    simp only [h, Bool.false_eq_true, if_false]
    exact ⟨trivial, debitSum_eq_filter _, creditSum_eq_filter _⟩

/-- Claim C3: whenever the period filter leaves no matching records, the
summary is exactly `{total_debit: 0, total_credit: 0, balance: 0}` — three
present plain-number fields. -/
theorem C3_summary_empty_zero (store : List Transaction) (month year : Option Int)
    (h : summaryMatched store month year = []) :
    get_summary store month year = ⟨0, 0, 0⟩ :=
  get_summary_of_matched_nil store month year h

/-- Claim C3 witness: the empty store matches nothing, and its summary is
the zero record. -/
theorem C3_summary_empty_zero_witness :
    summaryMatched [] (some 7) none = [] ∧ get_summary [] (some 7) none = ⟨0, 0, 0⟩ :=
  ⟨rfl, C3_summary_empty_zero [] (some 7) none rfl⟩

/-- Claim C4: a create request whose kind is neither `debit` nor `credit`
fails with the HTTP 422 client error and leaves the store unchanged; a
request with one of the two kinds inserts the timestamped record and
returns the new identifier. -/
theorem C4_create_kind_validation (store : List Transaction) (p : ExpenseCreate)
    (now : Nat) (newId : String) :
    (p.kind ≠ "debit" ∧ p.kind ≠ "credit" →
      create_expense store p now newId =
        (Except.error (ApiError.http 422 "kind must be 'debit' or 'credit'"), store)) ∧
    (p.kind = "debit" ∨ p.kind = "credit" →
      create_expense store p now newId =
        (Except.ok newId,
          store ++ [⟨newId, p.date, p.description, p.amount, p.kind, now, now⟩])) := by
  constructor
  · rintro ⟨hd, hc⟩
    unfold create_expense
    rw [if_neg]
    simp [hd, hc]
  · intro hk
    unfold create_expense create_document
    rw [if_pos]
    rcases hk with h | h <;> simp [h]

/-- Claim C4 witness: the theorem applied to a rejected `transfer` request
and to an accepted `credit` request. -/
theorem C4_create_kind_validation_witness :
    create_expense [] ⟨⟨2024, 1, 2⟩, "x", 5, "transfer"⟩ 9 "dddddddddddddddddddddddd" =
      (Except.error (ApiError.http 422 "kind must be 'debit' or 'credit'"), []) ∧
    create_expense [] ⟨⟨2024, 1, 2⟩, "x", 5, "credit"⟩ 9 "dddddddddddddddddddddddd" =
      (Except.ok "dddddddddddddddddddddddd",
        [⟨"dddddddddddddddddddddddd", ⟨2024, 1, 2⟩, "x", 5, "credit", 9, 9⟩]) :=
  ⟨(C4_create_kind_validation [] ⟨⟨2024, 1, 2⟩, "x", 5, "transfer"⟩ 9
      "dddddddddddddddddddddddd").1 (by simp),
   (C4_create_kind_validation [] ⟨⟨2024, 1, 2⟩, "x", 5, "credit"⟩ 9
      "dddddddddddddddddddddddd").2 (Or.inr rfl)⟩

/-- A one-record store for the claim C5 counterexample: a March 2024 debit. -/
def cex5Tx : Transaction :=
  ⟨"aaaaaaaaaaaaaaaaaaaaaaaa", ⟨2024, 3, 15⟩, "rent", 1200, "debit", 10, 10⟩

/-- Claim C5 counterexample: with `month = 0` supplied and no year, the
claim says the result is exactly the records whose month component is 0 —
the empty list here — but `if month:` is falsy on 0, so the filter is
skipped and the March record is returned. -/
theorem C5_counterexample :
    list_expenses [cex5Tx] (some 0) none = [cex5Tx] ∧
    List.filter (fun t => (t.date.month : Int) == (0 : Int)) [cex5Tx] = [] :=
  ⟨rfl, rfl⟩

/-- Claim C5 as amended: a supplied selector equal to 0 is ignored like an
absent one; otherwise a supplied month selects by month component across
all years, a supplied year by year component, and both together by their
conjunction — `list_expenses` is exactly that filter. -/
theorem C5_period_filter_amended (store : List Transaction) (month year : Option Int) :
    list_expenses store month year = store.filter (periodPred month year) :=
  list_expenses_filter_periodPred store month year

/-- Claim C5 witness: the amended filter law applied to a concrete store
and period. -/
theorem C5_period_filter_amended_witness :
    list_expenses [cex5Tx] (some 3) (some 2024) =
      List.filter (periodPred (some 3) (some 2024)) [cex5Tx] :=
  C5_period_filter_amended [cex5Tx] (some 3) (some 2024)

/-- A one-record store for the claim C6 counterexample: a July 2023 credit. -/
def cex6Tx : Transaction :=
  ⟨"bbbbbbbbbbbbbbbbbbbbbbbb", ⟨2023, 7, 1⟩, "salary", 3000, "credit", 20, 20⟩

/-- Claim C6 counterexample: the claim includes `month = 0` among the
out-of-range values that must match nothing, but a supplied 0 is falsy for
`if month:`, so the whole store is returned instead of the empty set. -/
theorem C6_counterexample :
    list_expenses [cex6Tx] (some 0) none = [cex6Tx] := rfl

/-- Claim C6 as amended: a supplied nonzero month outside 1..12 matches no
record with a valid date, and a supplied nonzero year present on no record
matches nothing, with no error raised (the summary falls back to the zero
record); a supplied 0 is treated as absent instead of matching nothing. -/
theorem C6_out_of_range_amended (store : List Transaction) (m y : Int)
    (hm0 : m ≠ 0) (hmr : m < 1 ∨ 12 < m)
    (hvalid : ∀ t ∈ store, 1 ≤ t.date.month ∧ t.date.month ≤ 12)
    (hy0 : y ≠ 0) (hyabs : ∀ t ∈ store, t.date.year ≠ y) :
    list_expenses store (some m) none = [] ∧
    list_expenses store none (some y) = [] ∧
    list_expenses store (some m) (some y) = [] ∧
    get_summary store (some m) none = ⟨0, 0, 0⟩ ∧
    get_summary store none (some y) = ⟨0, 0, 0⟩ := by
  have hmonth : ∀ t ∈ store, ¬((t.date.month : Int) == m) := by
    intro t ht
    rcases hvalid t ht with ⟨h1, h2⟩
    simp only [beq_iff_eq]
    omega
  have hyear : ∀ t ∈ store, ¬(t.date.year == y) := by
    intro t ht
    simp only [beq_iff_eq]
    exact hyabs t ht
  have hpm : ∀ t ∈ store, ¬(periodPred (some m) none t = true) := by
    intro t ht
    simp [periodPred, truthy, hm0]
    intro hc
    exact absurd (by simp [hc]) (hmonth t ht)
  have hpy : ∀ t ∈ store, ¬(periodPred none (some y) t = true) := by
    intro t ht
    simp [periodPred, truthy, hy0]
    intro hc
    exact absurd (by simp [hc]) (hyear t ht)
  have hpmy : ∀ t ∈ store, ¬(periodPred (some m) (some y) t = true) := by
    intro t ht
    simp [periodPred, truthy, hm0, hy0]
    intro hc
    exact absurd (by simp [hc]) (hmonth t ht)
  have flist : ∀ month year : Option Int,
      (∀ t ∈ store, ¬(periodPred month year t = true)) →
      list_expenses store month year = [] := by
    intro month year hp
    rw [list_expenses_filter_periodPred store month year]
    exact List.filter_eq_nil_iff.mpr hp
  have fsum : ∀ month year : Option Int,
      (∀ t ∈ store, ¬(periodPred month year t = true)) →
      summaryMatched store month year = [] := by
    intro month year hp
    unfold summaryMatched
    rw [List.filter_congr (fun t _ => summary_query_spec month year t)]
    exact List.filter_eq_nil_iff.mpr hp
  exact ⟨flist _ _ hpm, flist _ _ hpy, flist _ _ hpmy,
    get_summary_of_matched_nil _ _ _ (fsum _ _ hpm),
    get_summary_of_matched_nil _ _ _ (fsum _ _ hpy)⟩

/-- Claim C6 witness: the amended out-of-range law applied with month 13
and year 1999 to a one-record store. -/
theorem C6_out_of_range_amended_witness :
    list_expenses [cex6Tx] (some 13) none = [] ∧
    list_expenses [cex6Tx] none (some 1999) = [] ∧
    list_expenses [cex6Tx] (some 13) (some 1999) = [] ∧
    get_summary [cex6Tx] (some 13) none = ⟨0, 0, 0⟩ ∧
    get_summary [cex6Tx] none (some 1999) = ⟨0, 0, 0⟩ :=
  C6_out_of_range_amended [cex6Tx] 13 1999 (by decide) (by decide)
    (by decide) (by decide) (by decide)

lemma updateOne_of_absent (l : List Transaction) (oid : String)
    (f : Transaction → Transaction) (h : ∀ t ∈ l, t.oid ≠ oid) :
    updateOne l oid f = (0, l) := by
  induction l with
  | nil => rfl
  | cons t ts ih =>
    have ht : ¬(t.oid == oid) := by
      simp only [beq_iff_eq]
      exact h t (List.mem_cons_self t ts)
    have hts := ih (fun u hu => h u (List.mem_cons_of_mem t hu))
    simp [updateOne, ht, hts]

lemma deleteOne_of_absent (l : List Transaction) (oid : String)
    (h : ∀ t ∈ l, t.oid ≠ oid) :
    deleteOne l oid = (0, l) := by
  induction l with
  | nil => rfl
  | cons t ts ih =>
    have ht : ¬(t.oid == oid) := by
      simp only [beq_iff_eq]
      exact h t (List.mem_cons_self t ts)
    have hts := ih (fun u hu => h u (List.mem_cons_of_mem t hu))
    simp [deleteOne, ht, hts]

/-- Claim C7: an update request with every optional field absent returns
the no-op result `{"updated": False}` and leaves the store — so also every
record's `updated_at` — untouched, for any identifier string, valid or not
(the identifier is never even parsed). -/
theorem C7_update_empty_noop (store : List Transaction) (idStr : String)
    (p : ExpenseUpdate) (now : Nat) (h : updatesEmpty p = true) :
    update_expense store idStr p now = (Except.ok ⟨false⟩, store) := by
  unfold update_expense
  simp [h]

/-- Claim C7 witness: the all-`None` payload on a one-record store, with an
identifier string that is not even a valid ObjectId. -/
theorem C7_update_empty_noop_witness :
    updatesEmpty ⟨none, none, none, none⟩ = true ∧
    update_expense [cex5Tx] "zzz" ⟨none, none, none, none⟩ 99 =
      (Except.ok ⟨false⟩, [cex5Tx]) :=
  ⟨rfl, C7_update_empty_noop [cex5Tx] "zzz" ⟨none, none, none, none⟩ 99 rfl⟩

/-- Claim C8: when a syntactically valid store identifier matches no stored
record, update (with a non-empty field set) and delete both return the
HTTP 404 not-found signal and leave the store unchanged. -/
theorem C8_unknown_id_not_found (store : List Transaction) (idStr oid : String)
    (p : ExpenseUpdate) (now : Nat)
    (hid : parseObjectId idStr = Except.ok oid)
    (habs : ∀ t ∈ store, t.oid ≠ oid)
    (hne : updatesEmpty p = false) :
    update_expense store idStr p now =
      (Except.error (ApiError.http 404 "Expense not found"), store) ∧
    delete_expense store idStr =
      (Except.error (ApiError.http 404 "Expense not found"), store) := by
  constructor
  · unfold update_expense
    rw [hne]
    simp only [Bool.false_eq_true, if_false, hid]
    simp [updateOne_of_absent store oid _ habs]
  · unfold delete_expense
    rw [hid]
    simp [deleteOne_of_absent store oid habs]

/-- Claim C8 witness: a valid identifier absent from a one-record store,
with a non-empty update payload. -/
theorem C8_unknown_id_not_found_witness :
    parseObjectId "ffffffffffffffffffffffff" = Except.ok "ffffffffffffffffffffffff" ∧
    update_expense [cex5Tx] "ffffffffffffffffffffffff" ⟨none, none, none, some "credit"⟩ 99 =
      (Except.error (ApiError.http 404 "Expense not found"), [cex5Tx]) ∧
    delete_expense [cex5Tx] "ffffffffffffffffffffffff" =
      (Except.error (ApiError.http 404 "Expense not found"), [cex5Tx]) := by
  have h := C8_unknown_id_not_found [cex5Tx] "ffffffffffffffffffffffff"
    "ffffffffffffffffffffffff" ⟨none, none, none, some "credit"⟩ 99 rfl (by decide) rfl
  exact ⟨rfl, h.1, h.2⟩

/-- Claim C9 counterexample: `create_expense` accepts a request with
`amount = -5` and persists the record with the negative amount unchanged —
no non-negativity check exists in the code. -/
theorem C9_counterexample :
    create_expense [] ⟨⟨2024, 5, 1⟩, "refund", -5, "debit"⟩ 100 "cccccccccccccccccccccccc" =
      (Except.ok "cccccccccccccccccccccccc",
        [⟨"cccccccccccccccccccccccc", ⟨2024, 5, 1⟩, "refund", -5, "debit", 100, 100⟩]) ∧
    (-5 : ℚ) < 0 :=
  ⟨rfl, by norm_num⟩

/-- Claim C9 as amended: neither create nor update constrains the sign of
`amount` — a create request with an allowed kind is persisted with exactly
the supplied amount, negative or not, and the update `$set` stores exactly
the supplied amount. -/
theorem C9_amount_unconstrained_amended (store : List Transaction) (p : ExpenseCreate)
    (now : Nat) (newId : String) (t : Transaction) (a : ℚ) (n2 : Nat)
    (hk : p.kind = "debit" ∨ p.kind = "credit") :
    create_expense store p now newId =
      (Except.ok newId,
        store ++ [⟨newId, p.date, p.description, p.amount, p.kind, now, now⟩]) ∧
    (applySet t ⟨none, none, some a, none⟩ n2).amount = a := by
  constructor
  · unfold create_expense create_document
    rw [if_pos]
    rcases hk with h | h <;> simp [h]
  · rfl

/-- Claim C9 witness: the amended no-validation law applied to a negative
create amount and a negative update amount. -/
theorem C9_amount_unconstrained_amended_witness :
    create_expense [] ⟨⟨2024, 5, 2⟩, "neg", -7, "credit"⟩ 3 "eeeeeeeeeeeeeeeeeeeeeeee" =
      (Except.ok "eeeeeeeeeeeeeeeeeeeeeeee",
        [⟨"eeeeeeeeeeeeeeeeeeeeeeee", ⟨2024, 5, 2⟩, "neg", -7, "credit", 3, 3⟩]) ∧
    (applySet cex5Tx ⟨none, none, some (-9), none⟩ 4).amount = -9 :=
  C9_amount_unconstrained_amended [] ⟨⟨2024, 5, 2⟩, "neg", -7, "credit"⟩ 3
    "eeeeeeeeeeeeeeeeeeeeeeee" cex5Tx (-9) 4 (Or.inr rfl)

/-- Claim C10 counterexample: with the invalid identifier string
`"not-an-objectid"` but an empty field set, the update endpoint returns
the no-op result instead of raising — the empty-update early return runs
before `ObjectId(expense_id)` is evaluated. -/
theorem C10_counterexample :
    update_expense [] "not-an-objectid" ⟨none, none, none, none⟩ 0 =
      (Except.ok ⟨false⟩, []) ∧
    parseObjectId "not-an-objectid" = Except.error "InvalidId" :=
  ⟨rfl, rfl⟩

/-- Claim C10 as amended: for every identifier string that is not a valid
ObjectId, delete — and update when its field set is non-empty — surfaces
the unhandled `InvalidId` exception rather than the 404 not-found signal,
and the store is never consulted; an empty-field update instead returns
the no-op result before the identifier is parsed. -/
theorem C10_invalid_id_exception_amended (store : List Transaction) (idStr : String)
    (p : ExpenseUpdate) (now : Nat)
    (hbad : parseObjectId idStr = Except.error "InvalidId")
    (hne : updatesEmpty p = false) :
    update_expense store idStr p now = (Except.error (ApiError.exn "InvalidId"), store) ∧
    delete_expense store idStr = (Except.error (ApiError.exn "InvalidId"), store) := by
  constructor
  · unfold update_expense
    rw [hne]
    simp [hbad]
  · unfold delete_expense
    rw [hbad]

/-- Claim C10 witness: the amended exception law applied to the invalid
identifier `"zzz"` with a non-empty payload. -/
theorem C10_invalid_id_exception_amended_witness :
    update_expense [cex6Tx] "zzz" ⟨none, none, none, some "debit"⟩ 5 =
      (Except.error (ApiError.exn "InvalidId"), [cex6Tx]) ∧
    delete_expense [cex6Tx] "zzz" =
      (Except.error (ApiError.exn "InvalidId"), [cex6Tx]) :=
  C10_invalid_id_exception_amended [cex6Tx] "zzz" ⟨none, none, none, some "debit"⟩ 5
    rfl rfl

end ExpenseTracker
